import Mathlib

/-!
Shallow embedding of the afxdp packet-buffer substrate:
`src/buf.rs` (the `Buf` capability trait), `src/buf_mmap.rs` (`BufMmap`, the
memory-mapped buffer) and `src/mmap_area.rs` (`MmapArea`, the arena allocator).

Modelling conventions:
* Machine integers (`u16`, `u64`, `usize`) are modelled as `Nat`.  Checked
  arithmetic that can abort in Rust (slice indexing out of range, `usize`
  subtraction underflow, `u16::try_from(..).unwrap()`, `panic!`) is modelled
  with `Option`: `none` is a fatal abort of the operation.
* The byte contents of the anonymous mapping are modelled as a function
  `mem : Nat → Nat` from arena offsets (relative to the mapping base) to byte
  values.  `mmap` and `munmap` are external system calls, so they enter the
  model as oracle parameters: `mmapSys` maps a request size and flag word to
  the returned pointer (possibly `MAP_FAILED`), `munmapSys` maps a pointer and
  size to the return code.
* A buffer's borrowed slice `data: &'a mut [u8]` is modelled as the `List Nat`
  of bytes it views (`slotView mem buf_len i` for slot `i`).
-/

/-- Modelled from the spec: the fixed headroom constant `AF_XDP_RESERVED` is
declared in the crate root (`lib.rs`), which is not part of the given sources;
the spec describes it as "a fixed system constant sized to the kernel-bypass
descriptor reservation", which for AF_XDP is 256 bytes. -/
def AF_XDP_RESERVED : Nat := 256

/-- Linux `MAP_PRIVATE` flag value. -/
def MAP_PRIVATE : Nat := 2

/-- Linux `MAP_ANONYMOUS` flag value. -/
def MAP_ANONYMOUS : Nat := 32

/-- Linux `MAP_HUGETLB` flag value. -/
def MAP_HUGETLB : Nat := 262144

/-- The `MAP_FAILED` sentinel, `(void * ) -1` reinterpreted as an address. -/
def MAP_FAILED : Nat := 2 ^ 64 - 1

/-- Checked `usize` subtraction: Rust `a - b` on `usize` aborts (overflow
check) when `b > a`. -/
def usize_sub (a b : Nat) : Option Nat :=
  if b ≤ a then some (a - b) else none

/-- `u16::try_from(n)` on a `usize` value: `some n` when `n` fits in `u16`,
failure (hence `.unwrap()` aborts) otherwise. -/
def u16_try_from (n : Nat) : Option Nat :=
  if n < 65536 then some n else none

/-- `BufMmap<'a, T>` from `src/buf_mmap.rs`: address into the umem area,
declared packet length (`u16`), headroom (`usize`), the borrowed byte view of
one slot, and the embedded user metadata. -/
structure BufMmap (T : Type) where
  addr : Nat
  len : Nat
  headroom : Nat
  data : List Nat
  user : T
  deriving DecidableEq

namespace BufMmap

variable {T : Type}

/-- `get_data`: `&self.data[self.headroom..]`; slicing aborts when
`headroom > data.len()`. -/
def get_data (b : BufMmap T) : Option (List Nat) :=
  if b.headroom ≤ b.data.length then some (b.data.drop b.headroom) else none

/-- `get_data_with_headroom`: `&self.data[0..]`, the whole view. -/
def get_data_with_headroom (b : BufMmap T) : List Nat :=
  b.data

/-- `get_capacity`: `u16::try_from(self.data.len() - self.headroom).unwrap()`.
`none` models the two aborts: `usize` subtraction underflow and a difference
that does not fit in `u16`. -/
def get_capacity (b : BufMmap T) : Option Nat :=
  (usize_sub b.data.length b.headroom).bind u16_try_from

/-- `get_len`: returns the declared packet length. -/
def get_len (b : BufMmap T) : Nat :=
  b.len

/-- `get_headroom`: returns the current headroom. -/
def get_headroom (b : BufMmap T) : Nat :=
  b.headroom

/-- `get_user`: returns the embedded user metadata. -/
def get_user (b : BufMmap T) : T :=
  b.user

/-- `set_len`: panics when `len > self.get_capacity()` (or when
`get_capacity` itself panics), otherwise stores the new length. -/
def set_len (b : BufMmap T) (len : Nat) : Option (BufMmap T) :=
  match b.get_capacity with
  | none => none
  | some cap => if cap < len then none else some { b with len := len }

/-- `set_headroom`: panics when
`headroom > self.get_capacity() as usize - self.headroom` (a checked `usize`
subtraction, and `get_capacity` itself can panic), otherwise stores the new
headroom.  Note the guard compares against `capacity - old headroom`, i.e.
`data.len() - 2 * old headroom`; the declared length is not consulted. -/
def set_headroom (b : BufMmap T) (headroom : Nat) : Option (BufMmap T) :=
  match b.get_capacity with
  | none => none
  | some cap =>
    match usize_sub cap b.headroom with
    | none => none
    | some avail => if avail < headroom then none else some { b with headroom := headroom }

end BufMmap

/-- `MmapError` from `src/mmap_area.rs`: the single recoverable error. -/
inductive MmapError where
  | Failed
  deriving DecidableEq

/-- `MmapAreaOptions`: configuration options for `MmapArea`. -/
structure MmapAreaOptions where
  huge_tlb : Bool
  deriving DecidableEq

/-- `MmapArea` from `src/mmap_area.rs`: slot count, slot length, and the
mapping base pointer. -/
structure MmapArea where
  buf_num : Nat
  buf_len : Nat
  ptr : Nat
  deriving DecidableEq

/-- The byte view of slot `i`: the `buf_len` bytes of arena memory at offsets
`[i * buf_len, (i + 1) * buf_len)`, as created by
`std::slice::from_raw_parts_mut(ma.ptr.offset(addr), buf_len)`. -/
def slotView (mem : Nat → Nat) (buf_len i : Nat) : List Nat :=
  (List.range buf_len).map (fun j => mem (i * buf_len + j))

/-- Write byte value `v` at arena offset `a`. -/
def writeByte (mem : Nat → Nat) (a v : Nat) : Nat → Nat :=
  fun x => if x = a then v else mem x

/-- The flag word `MmapArea::new` passes to `mmap`:
`MAP_PRIVATE | MAP_ANONYMOUS`, plus `MAP_HUGETLB` when requested. -/
def mmapFlags (options : MmapAreaOptions) : Nat :=
  if options.huge_tlb then MAP_PRIVATE ||| MAP_ANONYMOUS ||| MAP_HUGETLB
  else MAP_PRIVATE ||| MAP_ANONYMOUS

/-- `MmapArea::new(buf_num, buf_len, options)`: requests a mapping of
`buf_num * buf_len` bytes; on `MAP_FAILED` returns `Err(MmapError::Failed)`;
otherwise builds the arena handle and one `BufMmap` per slot with
`addr = i * buf_len`, `len = 0`, `headroom = AF_XDP_RESERVED`, default user
metadata, and the slot's byte view. -/
def MmapArea.new (T : Type) [Inhabited T] (mmapSys : Nat → Nat → Nat) (mem : Nat → Nat)
    (buf_num buf_len : Nat) (options : MmapAreaOptions) :
    Except MmapError (MmapArea × List (BufMmap T)) :=
  let ptr := mmapSys (buf_num * buf_len) (mmapFlags options)
  if ptr = MAP_FAILED then Except.error MmapError.Failed
  else
    let ma : MmapArea := { buf_num := buf_num, buf_len := buf_len, ptr := ptr }
    let bufs : List (BufMmap T) := (List.range buf_num).map (fun i =>
      { addr := i * buf_len
        len := 0
        headroom := AF_XDP_RESERVED
        data := slotView mem buf_len i
        user := default })
    Except.ok (ma, bufs)

/-- `get_ptr`: the mapping base pointer. -/
def MmapArea.get_ptr (ma : MmapArea) : Nat :=
  ma.ptr

/-- `get_buf_num`: the number of buffers. -/
def MmapArea.get_buf_num (ma : MmapArea) : Nat :=
  ma.buf_num

/-- `get_buf_len`: the slot length. -/
def MmapArea.get_buf_len (ma : MmapArea) : Nat :=
  ma.buf_len

/-- The observable effects of `Drop for MmapArea`: the `munmap` calls issued
and the error lines logged.  The type has no error channel: teardown never
reports failure to the caller. -/
structure DropEffect where
  munmap_calls : List (Nat × Nat)
  log_lines : List Nat
  deriving DecidableEq

/-- `Drop for MmapArea`: returns immediately (no `munmap`) when the original
map failed, otherwise calls `munmap(ptr, buf_num * buf_len)` exactly once and,
when that call returns nonzero, logs the `errno` value instead of escalating.
`munmapSys` and `errnoVal` are oracles for the external calls. -/
def MmapArea.drop (munmapSys : Nat → Nat → Int) (errnoVal : Nat) (ma : MmapArea) : DropEffect :=
  if ma.ptr = MAP_FAILED then { munmap_calls := [], log_lines := [] }
  else
    let r := munmapSys ma.ptr (ma.buf_num * ma.buf_len)
    { munmap_calls := [(ma.ptr, ma.buf_num * ma.buf_len)]
      log_lines := if r ≠ 0 then [errnoVal] else [] }

deriving instance DecidableEq for Except

/-! ## Concrete buffers used by counterexamples and witnesses -/

/-- A 10-byte slot with declared length 8 and headroom 0. -/
def c1_buf : BufMmap Unit :=
  { addr := 0, len := 8, headroom := 0, data := List.replicate 10 0, user := () }

/-- A 10-byte slot in its initial state: length 0, headroom 0. -/
def c2_buf : BufMmap Unit :=
  { addr := 0, len := 0, headroom := 0, data := List.replicate 10 0, user := () }

/-- The buffer reached from `c2_buf` by `set_len 8` then `set_headroom 5`. -/
def c2_buf' : BufMmap Unit :=
  { addr := 0, len := 8, headroom := 5, data := List.replicate 10 0, user := () }

/-- A 5-byte slot with headroom 2 (capacity 3). -/
def c5_buf : BufMmap Unit :=
  { addr := 7, len := 1, headroom := 2, data := List.replicate 5 9, user := () }

/-! ## Theorems for the claims -/

/-- Claim C1, evaluated on the code at a failing input: with a 10-byte slot,
declared length 8 and headroom 0, `set_headroom 5` succeeds and sets the
headroom, even though `5 + len() = 13 > 10 = data_with_headroom().size`, the
condition under which the claim requires a fatal abort.  The guard in
`set_headroom` compares the new headroom against `capacity - old headroom`
and never consults the declared length. -/
theorem set_headroom_succeeds_despite_len_overflow :
    BufMmap.set_headroom c1_buf 5 =
      some { addr := 0, len := 8, headroom := 5, data := List.replicate 10 0, user := () } ∧
    c1_buf.get_data_with_headroom.length < 5 + c1_buf.get_len := by
  decide

/-- Claim C2, evaluated on the code at a failing sequence: starting from a
10-byte slot with `headroom = len = 0` (so `headroom + len ≤ size` holds),
the non-aborting sequence `set_len 8` then `set_headroom 5` completes and
leaves a buffer with `headroom + len = 13 > 10 = size`: the invariant is not
preserved by every non-aborting mutation sequence. -/
theorem mutation_sequence_breaks_invariant :
    c2_buf.get_headroom + c2_buf.get_len ≤ c2_buf.get_data_with_headroom.length ∧
    (c2_buf.set_len 8).bind (fun b => BufMmap.set_headroom b 5) = some c2_buf' ∧
    c2_buf'.get_data_with_headroom.length < c2_buf'.get_headroom + c2_buf'.get_len := by
  decide

/-- Claim C5: whenever `get_capacity` returns a value, that value equals
`get_data_with_headroom().len() - get_headroom()`, and `get_data` is exactly
the full view with the first `get_headroom()` bytes removed, so its length
equals the capacity. -/
theorem get_capacity_eq_view_sub_headroom {T : Type} (b : BufMmap T) (cap : Nat)
    (h : b.get_capacity = some cap) :
    cap = b.get_data_with_headroom.length - b.get_headroom ∧
    b.get_data = some (b.get_data_with_headroom.drop b.get_headroom) ∧
    Option.map List.length b.get_data = some cap := by
  have hh : b.headroom ≤ b.data.length ∧ cap = b.data.length - b.headroom := by
    by_cases h1 : b.headroom ≤ b.data.length
    · by_cases h2 : b.data.length - b.headroom < 65536
      · simp [BufMmap.get_capacity, usize_sub, u16_try_from, h1, h2] at h
        exact ⟨h1, h.symm⟩
      · simp [BufMmap.get_capacity, usize_sub, u16_try_from, h1, h2] at h
    · simp [BufMmap.get_capacity, usize_sub, h1] at h
  obtain ⟨h1, h3⟩ := hh
  refine ⟨h3, ?_, ?_⟩
  · simp [BufMmap.get_data, BufMmap.get_data_with_headroom, BufMmap.get_headroom, h1]
  · simp [BufMmap.get_data, h1, h3]

/-- Claim C5 witness: the generic theorem applied to the concrete buffer
`c5_buf`, whose capacity is 3. -/
theorem get_capacity_eq_view_sub_headroom_witness :
    c5_buf.get_capacity = some 3 ∧
    (3 = c5_buf.get_data_with_headroom.length - c5_buf.get_headroom ∧
     c5_buf.get_data = some (c5_buf.get_data_with_headroom.drop c5_buf.get_headroom) ∧
     Option.map List.length c5_buf.get_data = some 3) :=
  ⟨by decide, get_capacity_eq_view_sub_headroom c5_buf 3 (by decide)⟩

/-- Claim C6: when `get_capacity` is defined, `set_len x` succeeds with
`get_len() = x` exactly when `x ≤ capacity`, and aborts (is fatal) when
`x > capacity`; the stored length is never truncated. -/
theorem set_len_succeeds_iff_within_capacity {T : Type} (b : BufMmap T) (cap x : Nat)
    (hcap : b.get_capacity = some cap) :
    (x ≤ cap → ∃ b', b.set_len x = some b' ∧ b'.get_len = x) ∧
    (cap < x → b.set_len x = none) := by
  constructor
  · intro hx
    refine ⟨{ b with len := x }, ?_, rfl⟩
    unfold BufMmap.set_len
    rw [hcap]
    simp [Nat.not_lt.mpr hx]
  · intro hx
    unfold BufMmap.set_len
    rw [hcap]
    simp [hx]

/-- Claim C6 witness: on `c5_buf` (capacity 3), `set_len 2` succeeds and the
length afterwards is 2. -/
theorem set_len_succeeds_iff_within_capacity_witness :
    c5_buf.get_capacity = some 3 ∧ 2 ≤ 3 ∧
    ((2 ≤ 3 → ∃ b', c5_buf.set_len 2 = some b' ∧ b'.get_len = 2) ∧
     (3 < 2 → c5_buf.set_len 2 = none)) :=
  ⟨by decide, by decide, set_len_succeeds_iff_within_capacity c5_buf 3 2 (by decide)⟩

/-- Claim C9: `get_capacity` aborts exactly when the view size minus the
current headroom is outside `[0, 65535]` (negative, i.e. headroom exceeds the
view size, or above the `u16` maximum); under the precondition it returns the
difference. -/
theorem get_capacity_aborts_iff_unrepresentable {T : Type} (b : BufMmap T) :
    (b.get_capacity = none ↔
      (b.get_data_with_headroom.length < b.get_headroom ∨
       65535 < b.get_data_with_headroom.length - b.get_headroom)) ∧
    (b.get_headroom ≤ b.get_data_with_headroom.length →
      b.get_data_with_headroom.length - b.get_headroom ≤ 65535 →
      b.get_capacity = some (b.get_data_with_headroom.length - b.get_headroom)) := by
  unfold BufMmap.get_capacity BufMmap.get_data_with_headroom BufMmap.get_headroom
  unfold usize_sub u16_try_from
  by_cases h1 : b.headroom ≤ b.data.length
  · by_cases h2 : b.data.length - b.headroom < 65536
    · simp [h1, h2]
      omega
    · simp [h1, h2]
      omega
  · simp [h1]
    omega

/-- Claim C9 witness: on `c5_buf` the precondition holds (headroom 2 within
the 5-byte view, difference 3 representable) and `get_capacity` returns the
difference. -/
theorem get_capacity_aborts_iff_unrepresentable_witness :
    c5_buf.get_headroom ≤ c5_buf.get_data_with_headroom.length ∧
    c5_buf.get_data_with_headroom.length - c5_buf.get_headroom ≤ 65535 ∧
    c5_buf.get_capacity =
      some (c5_buf.get_data_with_headroom.length - c5_buf.get_headroom) :=
  ⟨by decide, by decide,
    (get_capacity_aborts_iff_unrepresentable c5_buf).2 (by decide) (by decide)⟩

/-- Claim C10: a non-aborting `set_len` changes only the length field and a
non-aborting `set_headroom` changes only the headroom field; address, user
metadata and every byte of the slot view are unchanged. -/
theorem mutators_touch_only_their_field {T : Type} (b b' : BufMmap T) (x : Nat) :
    (b.set_len x = some b' →
      b'.addr = b.addr ∧ b'.user = b.user ∧ b'.data = b.data ∧ b'.headroom = b.headroom) ∧
    (b.set_headroom x = some b' →
      b'.addr = b.addr ∧ b'.user = b.user ∧ b'.data = b.data ∧ b'.len = b.len) := by
  constructor
  · intro h
    unfold BufMmap.set_len at h
    split at h
    · exact absurd h (by simp)
    · split at h
      · exact absurd h (by simp)
      · simp only [Option.some.injEq] at h
        subst h
        exact ⟨rfl, rfl, rfl, rfl⟩
  · intro h
    unfold BufMmap.set_headroom at h
    split at h
    · exact absurd h (by simp)
    · split at h
      · exact absurd h (by simp)
      · split at h
        · exact absurd h (by simp)
        · simp only [Option.some.injEq] at h
          subst h
          exact ⟨rfl, rfl, rfl, rfl⟩

/-- Claim C10 witness: on `c5_buf`, `set_len 2` yields a buffer differing only
in the length field. -/
theorem mutators_touch_only_their_field_witness :
    c5_buf.set_len 2 =
      some { addr := 7, len := 2, headroom := 2, data := List.replicate 5 9, user := () } ∧
    ({ addr := 7, len := 2, headroom := 2, data := List.replicate 5 9,
       user := () } : BufMmap Unit).addr = c5_buf.addr ∧
    ({ addr := 7, len := 2, headroom := 2, data := List.replicate 5 9,
       user := () } : BufMmap Unit).user = c5_buf.user ∧
    ({ addr := 7, len := 2, headroom := 2, data := List.replicate 5 9,
       user := () } : BufMmap Unit).data = c5_buf.data ∧
    ({ addr := 7, len := 2, headroom := 2, data := List.replicate 5 9,
       user := () } : BufMmap Unit).headroom = c5_buf.headroom :=
  ⟨by decide,
    (mutators_touch_only_their_field c5_buf
      { addr := 7, len := 2, headroom := 2, data := List.replicate 5 9, user := () } 2).1
      (by decide)⟩

/-! ## Helper lemmas about slot views -/

/-- A slot view has exactly `buf_len` bytes. -/
theorem slotView_length (mem : Nat → Nat) (buf_len i : Nat) :
    (slotView mem buf_len i).length = buf_len := by
  simp [slotView]

/-- Byte `j` of slot `i`'s view is the arena byte at offset `i * buf_len + j`. -/
theorem slotView_getElem (mem : Nat → Nat) (buf_len i j : Nat) (hj : j < buf_len) :
    (slotView mem buf_len i)[j]? = some (mem (i * buf_len + j)) := by
  unfold slotView
  rw [List.getElem?_map, List.getElem?_range hj]
  rfl

/-- Two memories that agree on slot `i`'s offsets give the same slot view. -/
theorem slotView_congr {mem mem' : Nat → Nat} {buf_len i : Nat}
    (h : ∀ j, j < buf_len → mem (i * buf_len + j) = mem' (i * buf_len + j)) :
    slotView mem buf_len i = slotView mem' buf_len i :=
  List.map_congr_left (fun j hj => h j (List.mem_range.mp hj))

/-- Offsets inside distinct slots are distinct arena addresses. -/
theorem slot_addr_ne {L i i' off off' : Nat} (hne : i ≠ i') (ho : off < L) (ho' : off' < L) :
    i * L + off ≠ i' * L + off' := by
  rcases Nat.lt_or_ge i i' with h | h
  · have h1 : (i + 1) * L ≤ i' * L := mul_le_mul_right' h L
    have h2 : i * L + off < (i + 1) * L := by
      have : (i + 1) * L = i * L + L := by ring
      omega
    omega
  · have hlt : i' < i := lt_of_le_of_ne h (Ne.symm hne)
    have h1 : (i' + 1) * L ≤ i * L := mul_le_mul_right' hlt L
    have h2 : i' * L + off' < (i' + 1) * L := by
      have : (i' + 1) * L = i' * L + L := by ring
      omega
    omega

/-- Claim C3: a successful `MmapArea::new(N, L, options)` returns exactly `N`
buffers; buffer `i` has address `i * L`, length 0, headroom
`AF_XDP_RESERVED`, default metadata, and a view of exactly `L` bytes covering
arena offsets `[i * L, (i + 1) * L)`; hence, for slots at least as long as the
reserved headroom, `get_data().len() = L - AF_XDP_RESERVED`. -/
theorem new_constructs_one_buf_per_slot {T : Type} [Inhabited T]
    (mmapSys : Nat → Nat → Nat) (mem : Nat → Nat) (N L : Nat) (opts : MmapAreaOptions)
    (ma : MmapArea) (bufs : List (BufMmap T))
    (hok : MmapArea.new T mmapSys mem N L opts = Except.ok (ma, bufs)) :
    bufs.length = N ∧
    ∀ i, i < N →
      bufs[i]? = some { addr := i * L, len := 0, headroom := AF_XDP_RESERVED,
                        data := slotView mem L i, user := (default : T) } ∧
      (slotView mem L i).length = L ∧
      (∀ j, j < L → (slotView mem L i)[j]? = some (mem (i * L + j))) ∧
      (AF_XDP_RESERVED ≤ L →
        Option.map List.length (bufs[i]?.bind BufMmap.get_data) =
          some (L - AF_XDP_RESERVED)) := by
  unfold MmapArea.new at hok
  by_cases hmap : mmapSys (N * L) (mmapFlags opts) = MAP_FAILED
  · simp [hmap] at hok
  · simp only [hmap, if_neg, ite_false, Except.ok.injEq, Prod.mk.injEq] at hok
    obtain ⟨-, hbufs⟩ := hok
    subst hbufs
    refine ⟨by simp, fun i hi => ?_⟩
    have hbi : ((List.range N).map (fun i =>
        ({ addr := i * L, len := 0, headroom := AF_XDP_RESERVED,
           data := slotView mem L i, user := default } : BufMmap T)))[i]? =
        some { addr := i * L, len := 0, headroom := AF_XDP_RESERVED,
               data := slotView mem L i, user := default } := by
      rw [List.getElem?_map, List.getElem?_range hi]
      rfl
    refine ⟨hbi, slotView_length mem L i, fun j hj => slotView_getElem mem L i j hj, ?_⟩
    intro hRL
    rw [hbi]
    simp [BufMmap.get_data, slotView_length, hRL]

set_option maxRecDepth 16384

/-- Claim C3 witness: one slot of length 258 with zeroed memory; the single
returned buffer has address 0, length 0, headroom `AF_XDP_RESERVED = 256`,
the 258-byte slot view, and payload length `258 - 256 = 2`. -/
theorem new_constructs_one_buf_per_slot_witness :
    MmapArea.new Unit (fun _ _ => 4096) (fun _ => 0) 1 258 { huge_tlb := false } =
      Except.ok ({ buf_num := 1, buf_len := 258, ptr := 4096 },
        [{ addr := 0, len := 0, headroom := AF_XDP_RESERVED,
           data := slotView (fun _ => 0) 258 0, user := () }]) ∧
    ([({ addr := 0, len := 0, headroom := AF_XDP_RESERVED,
         data := slotView (fun _ => 0) 258 0, user := () } : BufMmap Unit)].length = 1 ∧
     ∀ i, i < 1 →
       [({ addr := 0, len := 0, headroom := AF_XDP_RESERVED,
           data := slotView (fun _ => 0) 258 0, user := () } : BufMmap Unit)][i]? =
         some { addr := i * 258, len := 0, headroom := AF_XDP_RESERVED,
                data := slotView (fun _ => 0) 258 i, user := () } ∧
       (slotView (fun _ => 0) 258 i).length = 258 ∧
       (∀ j, j < 258 → (slotView (fun _ => 0) 258 i)[j]? = some 0) ∧
       (AF_XDP_RESERVED ≤ 258 →
         Option.map List.length
           ([({ addr := 0, len := 0, headroom := AF_XDP_RESERVED,
                data := slotView (fun _ => 0) 258 0,
                user := () } : BufMmap Unit)][i]?.bind BufMmap.get_data) =
           some (258 - AF_XDP_RESERVED))) :=
  ⟨by decide,
    new_constructs_one_buf_per_slot (fun _ _ => 4096) (fun _ => 0) 1 258
      { huge_tlb := false } { buf_num := 1, buf_len := 258, ptr := 4096 }
      [{ addr := 0, len := 0, headroom := AF_XDP_RESERVED,
         data := slotView (fun _ => 0) 258 0, user := () }] (by decide)⟩

/-- Claim C4: for a successful construction with `N` slots of length `L`,
slot `i`'s view is exactly the arena byte range `[i * L, (i + 1) * L)`
(address `i * L`, view `slotView mem L i`); writing a byte into slot `i` and
reading it back from slot `i` returns the written byte; and a write into slot
`i` leaves every byte of any other slot `i'` unchanged. -/
theorem arena_slots_cover_and_are_disjoint {T : Type} [Inhabited T]
    (mmapSys : Nat → Nat → Nat) (mem : Nat → Nat) (N L : Nat) (opts : MmapAreaOptions)
    (ma : MmapArea) (bufs : List (BufMmap T))
    (hok : MmapArea.new T mmapSys mem N L opts = Except.ok (ma, bufs))
    (i i' off off' v : Nat) (hi : i < N) (hi' : i' < N) (ho : off < L) (ho' : off' < L) :
    Option.map (fun b => (b.addr, b.data)) bufs[i]? = some (i * L, slotView mem L i) ∧
    (slotView (writeByte mem (i * L + off) v) L i)[off]? = some v ∧
    (i ≠ i' → slotView (writeByte mem (i * L + off) v) L i' = slotView mem L i') := by
  refine ⟨?_, ?_, ?_⟩
  · unfold MmapArea.new at hok
    by_cases hmap : mmapSys (N * L) (mmapFlags opts) = MAP_FAILED
    · simp [hmap] at hok
    · simp only [hmap, if_neg, ite_false, Except.ok.injEq, Prod.mk.injEq] at hok
      obtain ⟨-, hbufs⟩ := hok
      subst hbufs
      rw [List.getElem?_map, List.getElem?_range hi]
      rfl
  · rw [slotView_getElem _ L i off ho]
    simp [writeByte]
  · intro hne
    apply slotView_congr
    intro j hj
    have hne' : i' * L + j ≠ i * L + off := slot_addr_ne (Ne.symm hne) hj ho
    simp [writeByte, hne']

/-- Claim C4 witness: two slots of length 2 over zeroed memory; slot 0 covers
offsets `[0, 2)` and slot 1 covers `[2, 4)`; writing 7 at slot 0, offset 0
reads back as 7 from slot 0 and leaves slot 1's view unchanged. -/
theorem arena_slots_cover_and_are_disjoint_witness :
    MmapArea.new Unit (fun _ _ => 4096) (fun _ => 0) 2 2 { huge_tlb := false } =
      Except.ok ({ buf_num := 2, buf_len := 2, ptr := 4096 },
        [{ addr := 0, len := 0, headroom := AF_XDP_RESERVED,
           data := slotView (fun _ => 0) 2 0, user := () },
         { addr := 2, len := 0, headroom := AF_XDP_RESERVED,
           data := slotView (fun _ => 0) 2 1, user := () }]) ∧
    (Option.map (fun b => (b.addr, b.data))
        [({ addr := 0, len := 0, headroom := AF_XDP_RESERVED,
            data := slotView (fun _ => 0) 2 0, user := () } : BufMmap Unit),
         { addr := 2, len := 0, headroom := AF_XDP_RESERVED,
           data := slotView (fun _ => 0) 2 1, user := () }][0]? =
        some (0 * 2, slotView (fun _ => 0) 2 0) ∧
     (slotView (writeByte (fun _ => 0) (0 * 2 + 0) 7) 2 0)[0]? = some 7 ∧
     ((0 : Nat) ≠ 1 →
       slotView (writeByte (fun _ => 0) (0 * 2 + 0) 7) 2 1 = slotView (fun _ => 0) 2 1)) :=
  ⟨by decide,
    arena_slots_cover_and_are_disjoint (fun _ _ => 4096) (fun _ => 0) 2 2
      { huge_tlb := false } { buf_num := 2, buf_len := 2, ptr := 4096 }
      [{ addr := 0, len := 0, headroom := AF_XDP_RESERVED,
         data := slotView (fun _ => 0) 2 0, user := () },
       { addr := 2, len := 0, headroom := AF_XDP_RESERVED,
         data := slotView (fun _ => 0) 2 1, user := () }]
      (by decide) 0 1 0 1 7 (by decide) (by decide) (by decide) (by decide)⟩

/-- Claim C7: `MmapArea::new` returns the recoverable `MmapError::Failed`
exactly when the `mmap` request for `buf_num * buf_len` bytes returns
`MAP_FAILED` (in which case nothing is constructed: `Except.error` carries no
arena and no buffers), and `Failed` is the only inhabitant of the error type,
i.e. the only recoverable error this layer can surface. -/
theorem new_fails_iff_mapping_fails {T : Type} [Inhabited T]
    (mmapSys : Nat → Nat → Nat) (mem : Nat → Nat) (N L : Nat) (opts : MmapAreaOptions) :
    (MmapArea.new T mmapSys mem N L opts = Except.error MmapError.Failed ↔
      mmapSys (N * L) (mmapFlags opts) = MAP_FAILED) ∧
    (∀ e : MmapError, e = MmapError.Failed) := by
  constructor
  · unfold MmapArea.new
    by_cases h : mmapSys (N * L) (mmapFlags opts) = MAP_FAILED <;> simp [h]
  · intro e
    cases e
    rfl

/-- Claim C7 witness: the theorem applied to an `mmap` oracle that always
fails, at 3 slots of length 5. -/
theorem new_fails_iff_mapping_fails_witness :
    (MmapArea.new Unit (fun _ _ => MAP_FAILED) (fun _ => 0) 3 5 { huge_tlb := false } =
        Except.error MmapError.Failed ↔
      (3 * 5 : Nat) = 3 * 5 ∧ MAP_FAILED = MAP_FAILED) ∧
    (∀ e : MmapError, e = MmapError.Failed) := by
  have h := new_fails_iff_mapping_fails (T := Unit)
    (fun _ _ => MAP_FAILED) (fun _ => 0) 3 5 { huge_tlb := false }
  exact ⟨by simpa using h.1, h.2⟩

/-- Claim C8: teardown performs no `munmap` when the base pointer is the
`MAP_FAILED` sentinel (failed construction); otherwise it calls
`munmap(ptr, buf_num * buf_len)` exactly once; and when that call fails the
errno value is only logged — the returned effect has no error channel, so the
failure is never escalated to the caller. -/
theorem drop_releases_exactly_once (munmapSys : Nat → Nat → Int) (errnoVal : Nat)
    (ma : MmapArea) :
    (ma.ptr = MAP_FAILED →
      MmapArea.drop munmapSys errnoVal ma = { munmap_calls := [], log_lines := [] }) ∧
    (ma.ptr ≠ MAP_FAILED →
      (MmapArea.drop munmapSys errnoVal ma).munmap_calls =
        [(ma.ptr, ma.buf_num * ma.buf_len)]) ∧
    (ma.ptr ≠ MAP_FAILED → munmapSys ma.ptr (ma.buf_num * ma.buf_len) ≠ 0 →
      (MmapArea.drop munmapSys errnoVal ma).log_lines = [errnoVal]) := by
  refine ⟨fun h => ?_, fun h => ?_, fun h hr => ?_⟩
  · simp [MmapArea.drop, h]
  · simp [MmapArea.drop, h]
  · simp [MmapArea.drop, h, hr]

/-- Claim C8 witness: a failed construction tears down with no `munmap`; a
successful one at base 4096 with 3 slots of length 4 issues the single call
`munmap(4096, 12)` and, when `munmap` returns -1, logs errno 12. -/
theorem drop_releases_exactly_once_witness :
    MmapArea.drop (fun _ _ => -1) 12 { buf_num := 3, buf_len := 4, ptr := MAP_FAILED } =
      { munmap_calls := [], log_lines := [] } ∧
    (MmapArea.drop (fun _ _ => -1) 12 { buf_num := 3, buf_len := 4, ptr := 4096 }).munmap_calls =
      [(4096, 12)] ∧
    (MmapArea.drop (fun _ _ => -1) 12 { buf_num := 3, buf_len := 4, ptr := 4096 }).log_lines =
      [12] :=
  ⟨(drop_releases_exactly_once (fun _ _ => -1) 12
      { buf_num := 3, buf_len := 4, ptr := MAP_FAILED }).1 (by decide),
   (drop_releases_exactly_once (fun _ _ => -1) 12
      { buf_num := 3, buf_len := 4, ptr := 4096 }).2.1 (by decide),
   (drop_releases_exactly_once (fun _ _ => -1) 12
      { buf_num := 3, buf_len := 4, ptr := 4096 }).2.2 (by decide) (by decide)⟩
